import Mathlib

/-!
Verification of core data-model and action semantics of the Circuit Sandbox
circuit editor: grid serialization, clipboard slots, undo history, the file
save action, simulator determinism, and input-handle resolution.

Definitions are shallow embeddings of the C++ sources under
`src/CircuitSandbox` and `src/CircuitPlayground`.  Components whose
implementation files are not part of the provided sources (CanvasState
internals, HistoryManager, Compiler/Simulator) are modelled from the
specification, as marked in their doc comments.
-/

set_option maxRecDepth 4096

/-- One grid cell.  Variant order follows the element list in
`declarations.hpp` (`tool_tags_t`, elements only) with `empty` for
`std::monostate` at variant index 0; every non-empty element carries a
current and a default logic level (the serializer in `filesaveaction.hpp`
reads both off every non-monostate variant). -/
inductive Element where
  | empty
  | conductiveWire (logicLevel defaultLogicLevel : Bool)
  | insulatedWire (logicLevel defaultLogicLevel : Bool)
  | signal (logicLevel defaultLogicLevel : Bool)
  | source (logicLevel defaultLogicLevel : Bool)
  | positiveRelay (logicLevel defaultLogicLevel : Bool)
  | negativeRelay (logicLevel defaultLogicLevel : Bool)
  | andGate (logicLevel defaultLogicLevel : Bool)
  | orGate (logicLevel defaultLogicLevel : Bool)
  | nandGate (logicLevel defaultLogicLevel : Bool)
  | norGate (logicLevel defaultLogicLevel : Bool)
  | screenCommunicator (logicLevel defaultLogicLevel : Bool)
  | fileInputCommunicator (logicLevel defaultLogicLevel : Bool)
  | fileOutputCommunicator (logicLevel defaultLogicLevel : Bool)
  deriving DecidableEq, Repr

/-- Embeds `element.index()` of the `std::variant`: position of the variant in the
declaration order. -/
def Element.index : Element → Nat
  | .empty => 0
  | .conductiveWire _ _ => 1
  | .insulatedWire _ _ => 2
  | .signal _ _ => 3
  | .source _ _ => 4
  | .positiveRelay _ _ => 5
  | .negativeRelay _ _ => 6
  | .andGate _ _ => 7
  | .orGate _ _ => 8
  | .nandGate _ _ => 9
  | .norGate _ _ => 10
  | .screenCommunicator _ _ => 11
  | .fileInputCommunicator _ _ => 12
  | .fileOutputCommunicator _ _ => 13

/-- Embeds `getLogicLevel()`; the serializer's visitor leaves the level at `false`
for `std::monostate`. -/
def Element.getLogicLevel : Element → Bool
  | .empty => false
  | .conductiveWire l _ => l
  | .insulatedWire l _ => l
  | .signal l _ => l
  | .source l _ => l
  | .positiveRelay l _ => l
  | .negativeRelay l _ => l
  | .andGate l _ => l
  | .orGate l _ => l
  | .nandGate l _ => l
  | .norGate l _ => l
  | .screenCommunicator l _ => l
  | .fileInputCommunicator l _ => l
  | .fileOutputCommunicator l _ => l

/-- Embeds `getDefaultLogicLevel()`; `false` for `std::monostate`. -/
def Element.getDefaultLogicLevel : Element → Bool
  | .empty => false
  | .conductiveWire _ d => d
  | .insulatedWire _ d => d
  | .signal _ d => d
  | .source _ d => d
  | .positiveRelay _ d => d
  | .negativeRelay _ d => d
  | .andGate _ d => d
  | .orGate _ d => d
  | .nandGate _ d => d
  | .norGate _ d => d
  | .screenCommunicator _ d => d
  | .fileInputCommunicator _ d => d
  | .fileOutputCommunicator _ d => d

/-- Modelled from the spec: `CanvasState` (canvasstate.hpp is not among the
provided sources).  A rectangular matrix of elements stored row-major; the
spec's invariant keeps the stored rectangle the minimal bounding box of the
non-empty cells, so the grid is empty exactly when the matrix has no rows. -/
structure CanvasState where
  rows : List (List Element)
  deriving DecidableEq, Repr

/-- Embeds `state.height()`. -/
def CanvasState.height (s : CanvasState) : Nat := s.rows.length

/-- Embeds `state.width()`. -/
def CanvasState.width (s : CanvasState) : Nat := (s.rows.headD []).length

/-- Embeds `state[{x, y}]`: out-of-range reads give `Element.empty`. -/
def CanvasState.get (s : CanvasState) (x y : Nat) : Element :=
  (s.rows.getD y []).getD x Element.empty

/-- Embeds `state.empty()`: with the minimal-bounding-box invariant the grid is
empty exactly when it has zero height. -/
def CanvasState.isEmpty (s : CanvasState) : Bool := s.rows.isEmpty

/-- Modelled from the spec: the fixed 4-byte file magic `CCSB_FILE_MAGIC`
(defined in fileutils.hpp, which is not among the provided sources); the
spec only requires a fixed 4-byte magic, taken here as the ASCII bytes of
CCSB. -/
def CCSB_FILE_MAGIC : List Nat := [67, 67, 83, 66]

/-- Embeds `boost::endian::native_to_little` of a 32-bit integer, as the list of
its four bytes, least significant first. -/
def leBytes32 (n : Nat) : List Nat :=
  [n % 256, n / 256 % 256, n / 65536 % 256, n / 16777216 % 256]

/-- The cell byte computed in `FileSaveAction::writeSave`:
`static_cast<uint8_t>((element_index << 2) + (logicLevel << 1) + defaultLogicLevel)`. -/
def encodeElement (e : Element) : Nat :=
  ((e.index <<< 2) + ((cond e.getLogicLevel 1 0) <<< 1) + cond e.getDefaultLogicLevel 1 0) % 256

/-- The byte stream produced by `FileSaveAction::writeSave` on the success
path: magic, version, width, height, then the nested row-major matrix loop
appending one byte per cell. -/
def writeSave (state : CanvasState) : List Nat :=
  let afterMagic := CCSB_FILE_MAGIC
  let afterVersion := afterMagic ++ leBytes32 0
  let afterDims := afterVersion ++ leBytes32 state.width ++ leBytes32 state.height
  (List.range state.height).foldl
    (fun acc y =>
      (List.range state.width).foldl
        (fun acc2 x => acc2 ++ [encodeElement (state.get x y)]) acc)
    afterDims

/-- Embeds `FileSaveAction::WriteResult`. -/
inductive WriteResult where
  | OK
  | ioError
  deriving DecidableEq, Repr

/-- Embeds `FileSaveAction::writeSave` including the failure path: if the output
file cannot be opened it returns `IO_ERROR` and writes nothing, otherwise
it writes the byte stream and returns `OK`. -/
def writeSaveRun (canOpen : Bool) (state : CanvasState) : WriteResult × List Nat :=
  if canOpen then (WriteResult.OK, writeSave state) else (WriteResult.ioError, [])

/-- Embeds `ext::point` from point.hpp. -/
structure Point where
  x : Int
  y : Int
  deriving DecidableEq, Repr

/-- The clipboard preview texture.  `generateThumbnail` renders the slot's
grid through `fillSurface` into an SDL texture; the texture is modelled by
the grid it was rendered from (`fillSurface` is a pure function of the
grid). -/
structure Thumbnail where
  renderedFrom : CanvasState
  deriving DecidableEq, Repr

/-- One named clipboard slot (`ClipboardManager::Clipboard`): a grid and its
cached preview. -/
structure Clipboard where
  state : CanvasState
  thumbnail : Thumbnail
  deriving DecidableEq, Repr

/-- Embeds `NUM_CLIPBOARDS` from declarations.hpp: number of named clipboards,
excluding the default clipboard. -/
def NUM_CLIPBOARDS : Nat := 10

/-- A fresh slot, used as the out-of-range default for list indexing (the
C++ `std::array` indexing is only ever in range). -/
def emptySlot : Clipboard := ⟨⟨[]⟩, ⟨⟨[]⟩⟩⟩

/-- Embeds `ClipboardManager`: the default clipboard plus the array of named
slots (`std::array<Clipboard, NUM_CLIPBOARDS> clipboards`). -/
structure ClipboardManager where
  defaultClipboard : CanvasState
  clipboards : List Clipboard
  deriving DecidableEq, Repr

/-- Embeds `ClipboardManager::read()`: returns the default clipboard. -/
def ClipboardManager.read (cm : ClipboardManager) : CanvasState :=
  cm.defaultClipboard

/-- Embeds `ClipboardManager::read(int32_t index)`: returns slot `index`'s grid and
overwrites the default clipboard with it unless that grid is empty. -/
def ClipboardManager.readAt (cm : ClipboardManager) (index : Nat) :
    ClipboardManager × CanvasState :=
  let slotState := (cm.clipboards.getD index emptySlot).state
  let cm2 := if slotState.isEmpty then cm else { cm with defaultClipboard := slotState }
  (cm2, slotState)

/-- Embeds `ClipboardManager::write(const CanvasState&)`: overwrites the default
clipboard. -/
def ClipboardManager.write (cm : ClipboardManager) (state : CanvasState) :
    ClipboardManager :=
  { cm with defaultClipboard := state }

/-- Embeds `ClipboardManager::generateThumbnail(int32_t, SDL_Renderer*)`:
regenerates slot `index`'s preview from its current grid. -/
def ClipboardManager.generateThumbnail (cm : ClipboardManager) (index : Nat) :
    ClipboardManager :=
  let slot := cm.clipboards.getD index emptySlot
  { cm with clipboards := cm.clipboards.set index { slot with thumbnail := ⟨slot.state⟩ } }

/-- Embeds `ClipboardManager::write(const CanvasState&, int32_t, SDL_Renderer*)`:
`defaultClipboard = clipboards[index].state = state;` then
`generateThumbnail(index, renderer)`. -/
def ClipboardManager.writeAt (cm : ClipboardManager) (state : CanvasState) (index : Nat) :
    ClipboardManager :=
  let slot := cm.clipboards.getD index emptySlot
  let cm2 : ClipboardManager :=
    { cm with
      defaultClipboard := state
      clipboards := cm.clipboards.set index { slot with state := state } }
  cm2.generateThumbnail index

/-- Embeds `ClipboardManager::getOrder()`: the identity ordering of the named
slots. -/
def ClipboardManager.getOrder (_cm : ClipboardManager) : List Nat :=
  List.range NUM_CLIPBOARDS

/-- Modelled from the spec: `HistorySnapshot` (historymanager.hpp is not
among the provided sources): an immutable grid copy plus the viewport
translation delta accumulated since the previous snapshot. -/
structure HistorySnapshot where
  state : CanvasState
  deltaTrans : Point
  deriving DecidableEq, Repr

/-- Modelled from the spec: `HistoryManager` (historymanager.hpp is not
among the provided sources).  `currentSnapshot` is the top of the undo
stack (always present: the initial state seeds it); `undoStack` holds the
older snapshots; the saved marker records the stack position of the last
successful save as an undo-stack depth. -/
structure HistoryManager where
  currentSnapshot : HistorySnapshot
  undoStack : List HistorySnapshot
  redoStack : List HistorySnapshot
  savedDepth : Option Nat
  deriving DecidableEq, Repr

/-- Modelled from the spec: `HistoryManager::saveToHistory(grid,
viewportDelta) -> bool` — compares `grid` against the top-of-undo-stack
snapshot; if unchanged: no push, returns false; else: pushes a new
snapshot, clears the redo stack, returns true. -/
def HistoryManager.saveToHistory (hm : HistoryManager) (grid : CanvasState)
    (viewportDelta : Point) : HistoryManager × Bool :=
  if grid = hm.currentSnapshot.state then (hm, false)
  else
    ({ currentSnapshot := ⟨grid, viewportDelta⟩
       undoStack := hm.currentSnapshot :: hm.undoStack
       redoStack := []
       savedDepth := hm.savedDepth }, true)

/-- Modelled from the spec: `HistoryManager::setSaved()` — marks the
current stack position as the last save point. -/
def HistoryManager.setSaved (hm : HistoryManager) : HistoryManager :=
  { hm with savedDepth := some hm.undoStack.length }

/-- Modelled from the spec: `HistoryManager::changedSinceLastSave()` —
whether the current stack position differs from the last save point. -/
def HistoryManager.changedSinceLastSave (hm : HistoryManager) : Bool :=
  hm.savedDepth ≠ some hm.undoStack.length

/-- The simulator as seen by `FileSaveAction`: only its running/stopped
status matters to the action (simulator.hpp is not among the provided
sources; the live circuit state is carried separately in
`StateManager.liveState`). -/
structure Simulator where
  running : Bool
  deriving DecidableEq, Repr

/-- Embeds `Simulator::stop()`. -/
def Simulator.stop (_s : Simulator) : Simulator := ⟨false⟩

/-- Embeds `Simulator::start()`. -/
def Simulator.start (_s : Simulator) : Simulator := ⟨true⟩

/-- Embeds `StateManager`, restricted to the fields `FileSaveAction` touches:
`defaultState` (the cached snapshot of the simulator state), the live
simulator state it would be refreshed from, the simulator status, and the
history manager. -/
structure StateManager where
  defaultState : CanvasState
  liveState : CanvasState
  simulator : Simulator
  historyManager : HistoryManager
  deriving DecidableEq, Repr

/-- Embeds `StateManager::updateDefaultState()`: refreshes `defaultState` with a
new snapshot from the simulator. -/
def StateManager.updateDefaultState (sm : StateManager) : StateManager :=
  { sm with defaultState := sm.liveState }

/-- Embeds `MainWindow`, restricted to the fields `FileSaveAction` touches.  File
paths are abstracted as natural numbers. -/
structure MainWindow where
  stateManager : StateManager
  unsaved : Bool
  filePath : Option Nat
  deriving DecidableEq, Repr

/-- Embeds `MainWindow::setUnsaved(bool)`. -/
def MainWindow.setUnsaved (mw : MainWindow) (b : Bool) : MainWindow :=
  { mw with unsaved := b }

/-- Embeds `MainWindow::setFilePath(const char*)`. -/
def MainWindow.setFilePath (mw : MainWindow) (p : Nat) : MainWindow :=
  { mw with filePath := some p }

/-- Modelled from the spec: `addExtensionIfNecessary` (fileutils.hpp is not
among the provided sources) normalizes the dialog's path; with paths
abstracted as numbers it is the identity — no claim here depends on the
path value. -/
def addExtensionIfNecessary (p : Nat) : Nat := p

/-- The externally visible steps taken by the `FileSaveAction` constructor,
in order. -/
inductive SaveEvent where
  | simulatorStop
  | writeAttempt (result : WriteResult)
  | setSavedCall
  | simulatorStart
  deriving DecidableEq, Repr

/-- The `FileSaveAction` constructor body from filesaveaction.hpp: stop the
simulator if running; resolve the file path (the constructor argument, or
the save dialog's answer — `dialogResult = none` models a cancelled
dialog); if a path was obtained, refresh `defaultState` and attempt
`writeSave`, and on success call `setUnsaved(false)`, `setFilePath` and
`historyManager.setSaved()` (on `IO_ERROR` only an error box is shown);
finally restart the simulator if it had been running.  Returns the
resulting window state and the ordered list of externally visible steps. -/
def fileSaveAction (mw : MainWindow) (filePathArg : Option Nat)
    (dialogResult : Option Nat) (canOpen : Nat → Bool) :
    MainWindow × List SaveEvent :=
  let simulatorRunning := mw.stateManager.simulator.running
  let mw1 :=
    if simulatorRunning then
      { mw with stateManager :=
        { mw.stateManager with simulator := mw.stateManager.simulator.stop } }
    else mw
  let ev1 : List SaveEvent := if simulatorRunning then [.simulatorStop] else []
  let filePath : Option Nat :=
    match filePathArg with
    | some p => some p
    | none => dialogResult.map addExtensionIfNecessary
  let step2 : MainWindow × List SaveEvent :=
    match filePath with
    | none => (mw1, [])
    | some p =>
      let mw1a := { mw1 with stateManager := mw1.stateManager.updateDefaultState }
      match writeSaveRun (canOpen p) mw1a.stateManager.defaultState with
      | (WriteResult.OK, _) =>
        let mwA := mw1a.setUnsaved false
        let mwB := mwA.setFilePath p
        let mwC :=
          { mwB with stateManager :=
            { mwB.stateManager with
              historyManager := mwB.stateManager.historyManager.setSaved } }
        (mwC, [.writeAttempt WriteResult.OK, .setSavedCall])
      | (WriteResult.ioError, _) => (mw1a, [.writeAttempt WriteResult.ioError])
  let mw2 := step2.fst
  let mw3 :=
    if simulatorRunning then
      { mw2 with stateManager :=
        { mw2.stateManager with simulator := mw2.stateManager.simulator.start } }
    else mw2
  let ev3 : List SaveEvent := if simulatorRunning then [.simulatorStart] else []
  (mw3, ev1 ++ step2.snd ++ ev3)

/-- Embeds `SDL_TOUCH_MOUSEID` = `(Uint32)-1`. -/
def SDL_TOUCH_MOUSEID : Nat := 4294967295

/-- Embeds `SDL_BUTTON_LEFT`. -/
def SDL_BUTTON_LEFT : Nat := 1

/-- Embeds `SDL_BUTTON_MIDDLE`. -/
def SDL_BUTTON_MIDDLE : Nat := 2

/-- Embeds `SDL_BUTTON_RIGHT`. -/
def SDL_BUTTON_RIGHT : Nat := 3

/-- Embeds `SDL_BUTTON_X1`. -/
def SDL_BUTTON_X1 : Nat := 4

/-- Embeds `SDL_BUTTON_X2`. -/
def SDL_BUTTON_X2 : Nat := 5

/-- Embeds `NUM_INPUT_HANDLES` from declarations.hpp: 5 mouse buttons plus touch. -/
def NUM_INPUT_HANDLES : Nat := 6

/-- The fields of `SDL_MouseButtonEvent` read by
`resolveInputHandleIndex`. -/
structure SDL_MouseButtonEvent where
  which : Nat
  button : Nat
  deriving DecidableEq, Repr

/-- Embeds `resolveInputHandleIndex` from declarations.hpp; the unreachable
default branch (`__builtin_unreachable`) is modelled as `none`. -/
def resolveInputHandleIndex (event : SDL_MouseButtonEvent) : Option Nat :=
  if event.which = SDL_TOUCH_MOUSEID then some 0
  else if event.button = SDL_BUTTON_LEFT then some 1
  else if event.button = SDL_BUTTON_MIDDLE then some 2
  else if event.button = SDL_BUTTON_RIGHT then some 3
  else if event.button = SDL_BUTTON_X1 then some 4
  else if event.button = SDL_BUTTON_X2 then some 5
  else none

/-- Whether the element is a `ConductiveWire` cell. -/
def Element.isConductiveWire : Element → Bool
  | .conductiveWire _ _ => true
  | _ => false

/-- Whether the element is a logic device (neither empty nor a wire):
signal, source, relay, gate or communicator. -/
def Element.isDeviceElement : Element → Bool
  | .empty => false
  | .conductiveWire _ _ => false
  | .insulatedWire _ _ => false
  | _ => true

/-- Whether the element is a communicator device. -/
def Element.isCommunicator : Element → Bool
  | .screenCommunicator _ _ => true
  | .fileInputCommunicator _ _ => true
  | .fileOutputCommunicator _ _ => true
  | _ => false

/-- Bounded iteration (the flood fill's relaxation loop). -/
def iterateN {α : Type _} (f : α → α) : Nat → α → α
  | 0, x => x
  | n + 1, x => iterateN f n (f x)

/-- Modelled from the spec: the compiler's flood-fill labelling
(simulator/compiler sources are not among the provided files).  Every cell
gets a label indexed row-major (`i = y*width + x`); a `ConductiveWire` cell
starts as its own label, every other cell carries no label. -/
def labelsInit (s : CanvasState) : List (Option Nat) :=
  (List.range (s.width * s.height)).map (fun i =>
    if (s.get (i % s.width) (i / s.width)).isConductiveWire then some i else none)

/-- One relaxation step for one cell: a wire cell's label becomes the
minimum of its own label and its 4-adjacent wire neighbours' labels. -/
def wireNodeMin (s : CanvasState) (labels : List (Option Nat)) (i : Nat) : Option Nat :=
  match labels.getD i none with
  | none => none
  | some v =>
    let w := s.width
    let x := i % w
    let y := i / w
    let neighbours : List Nat :=
      (if 0 < x then [i - 1] else []) ++
      (if x + 1 < w then [i + 1] else []) ++
      (if 0 < y then [i - w] else []) ++
      [i + w]
    some ((neighbours.filterMap (fun j => labels.getD j none)).foldl Nat.min v)

/-- One relaxation sweep over all cells. -/
def relaxAll (s : CanvasState) (labels : List (Option Nat)) : List (Option Nat) :=
  (List.range (s.width * s.height)).map (fun i => wireNodeMin s labels i)

/-- Modelled from the spec: the fixpoint of the flood fill.  After
`width*height` sweeps every wire cell's label is the smallest row-major
cell index of its 4-connected wire component, i.e. the first-encountered
cell of the component in row-major scan order — the spec's deterministic
node numbering. -/
def wireLabels (s : CanvasState) : List (Option Nat) :=
  iterateN (relaxAll s) (s.width * s.height) (labelsInit s)

/-- The electrical node of the cell at `(x, y)`: the component label when
the cell is conductive wire, otherwise no node. -/
def nodeOf (s : CanvasState) (x y : Nat) : Option Nat :=
  (wireLabels s).getD (y * s.width + x) none

/-- The node pin found at the northern neighbour of `(x, y)`. -/
def northPin (s : CanvasState) (x y : Nat) : Option Nat :=
  if y = 0 then none else nodeOf s x (y - 1)

/-- The node pin found at the western neighbour of `(x, y)`. -/
def westPin (s : CanvasState) (x y : Nat) : Option Nat :=
  if x = 0 then none else nodeOf s (x - 1) y

/-- The node pin found at the eastern neighbour of `(x, y)`. -/
def eastPin (s : CanvasState) (x y : Nat) : Option Nat :=
  nodeOf s (x + 1) y

/-- The node pin found at the southern neighbour of `(x, y)`. -/
def southPin (s : CanvasState) (x y : Nat) : Option Nat :=
  nodeOf s x (y + 1)

/-- Modelled from the spec: a compiled device — its element (with the
persisted levels), its communicator queue index (meaningful only for
communicators), the node pins it reads and the node pins it drives.  The
spec fixes neither gate nor relay pin geometry, so a concrete deterministic
choice is made: gates read west/north/south and drive east; relays read the
control on the north and switch the west/east pair; sources, signals and
communicators touch all four neighbours.  A dangling (`none`) pin reads as
logic-low. -/
structure Device where
  kind : Element
  commIdx : Nat
  reads : List (Option Nat)
  drives : List (Option Nat)
  deriving DecidableEq, Repr

/-- Build the device for the element at `(x, y)`, given the communicator
index to assign. -/
def mkDevice (s : CanvasState) (x y cIdx : Nat) : Device :=
  let e := s.get x y
  let allPins := [northPin s x y, westPin s x y, eastPin s x y, southPin s x y]
  match e with
  | .positiveRelay _ _ => ⟨e, cIdx, [northPin s x y], [westPin s x y, eastPin s x y]⟩
  | .negativeRelay _ _ => ⟨e, cIdx, [northPin s x y], [westPin s x y, eastPin s x y]⟩
  | .andGate _ _ => ⟨e, cIdx, [westPin s x y, northPin s x y, southPin s x y], [eastPin s x y]⟩
  | .orGate _ _ => ⟨e, cIdx, [westPin s x y, northPin s x y, southPin s x y], [eastPin s x y]⟩
  | .nandGate _ _ => ⟨e, cIdx, [westPin s x y, northPin s x y, southPin s x y], [eastPin s x y]⟩
  | .norGate _ _ => ⟨e, cIdx, [westPin s x y, northPin s x y, southPin s x y], [eastPin s x y]⟩
  | .fileOutputCommunicator _ _ => ⟨e, cIdx, allPins, []⟩
  | _ => ⟨e, cIdx, [], allPins⟩

/-- The device cells of the grid in row-major scan order. -/
def deviceCells (s : CanvasState) : List (Nat × Nat) :=
  (List.range s.height).flatMap (fun y =>
    (List.range s.width).filterMap (fun x =>
      if (s.get x y).isDeviceElement then some (x, y) else none))

/-- Modelled from the spec: `compile` — build the device list in row-major
scan order, assigning communicator queue indices in encounter order. -/
def compile (s : CanvasState) : List Device :=
  let cells := deviceCells s
  (List.range cells.length).map (fun k =>
    let c := cells.getD k (0, 0)
    let cIdx := ((cells.take k).filter
      (fun c2 => (s.get c2.1 c2.2).isCommunicator)).length
    mkDevice s c.1 c.2 cIdx)

/-- Read a pin's level from the old node levels; a dangling pin reads
logic-low. -/
def pinLevel (old : Nat → Bool) : Option Nat → Bool
  | some n => old n
  | none => false

/-- Modelled from the spec: the outputs a device computes for one tick,
reading only the previous tick's node levels (synchronous update).  Sources
and signals drive their stored level; gates compute AND/OR/NAND/NOR of
their input pins; a relay conducting per its control level drives both
switched pins with the OR of their previous levels, and an isolating relay
drives nothing; a screen communicator drives the level of its external
event state; a file-input communicator drives its stored level; a
file-output communicator only reads. -/
def Device.outputs (d : Device) (old : Nat → Bool) (commState : Nat → Bool) :
    List (Nat × Bool) :=
  let driveAll : Bool → List (Nat × Bool) := fun v =>
    d.drives.filterMap (fun p => p.map (fun n => (n, v)))
  match d.kind with
  | .signal l _ => driveAll l
  | .source l _ => driveAll l
  | .positiveRelay _ _ =>
    if pinLevel old (d.reads.getD 0 none) then
      driveAll (d.drives.any (fun p => pinLevel old p))
    else []
  | .negativeRelay _ _ =>
    if pinLevel old (d.reads.getD 0 none) then []
    else driveAll (d.drives.any (fun p => pinLevel old p))
  | .andGate _ _ => driveAll (d.reads.all (fun p => pinLevel old p))
  | .orGate _ _ => driveAll (d.reads.any (fun p => pinLevel old p))
  | .nandGate _ _ => driveAll (!(d.reads.all (fun p => pinLevel old p)))
  | .norGate _ _ => driveAll (!(d.reads.any (fun p => pinLevel old p)))
  | .screenCommunicator _ _ => driveAll (commState d.commIdx)
  | .fileInputCommunicator l _ => driveAll l
  | _ => []

/-- Apply one computed output to the new level buffer: a node's new level
is the OR of everything driving it. -/
def applyStep (base : Nat → Bool) (out : Nat × Bool) : Nat → Bool :=
  fun m => if m = out.1 then base m || out.2 else base m

/-- Modelled from the spec: publish all computed outputs atomically; a node
driven by nothing falls to logic-low. -/
def applyOutputs (outs : List (Nat × Bool)) (base : Nat → Bool) : Nat → Bool :=
  outs.foldl applyStep base

/-- Modelled from the spec: node level initialization at `start()` — a node
is high when any of its wire cells has a persisted high logic level. -/
def initLevels (s : CanvasState) : Nat → Bool := fun n =>
  (List.range (s.width * s.height)).any (fun i =>
    decide ((wireLabels s).getD i none = some n)
      && (s.get (i % s.width) (i / s.width)).getLogicLevel)

/-- Modelled from the spec: fold the queued external communicator events
(`sendCommunicatorEvent(index, pressed)`) into the communicator state, in
queue order (later events override earlier ones). -/
def applyEvents (evs : List (Nat × Bool)) (st : Nat → Bool) : Nat → Bool :=
  evs.foldl (fun acc ev => fun j => if j = ev.1 then ev.2 else acc j) st

/-- One synchronous simulator tick over an explicitly ordered device list:
every device's outputs are computed from the old levels only, then all
outputs are published. -/
def tickOrdered (devices : List Device) (old : Nat → Bool) (commState : Nat → Bool) :
    Nat → Bool :=
  applyOutputs (devices.flatMap (fun d => d.outputs old commState)) (fun _ => false)

/-- Modelled from the spec: compile the grid and run one simulator tick
under the given external event sequence, starting from the persisted
levels. -/
def runOneTick (s : CanvasState) (evs : List (Nat × Bool)) : Nat → Bool :=
  tickOrdered (compile s) (initLevels s) (applyEvents evs (fun _ => false))

/-! ## Theorems -/

theorem getD_set_self {α : Type _} (a d : α) (l : List α) (i : Nat)
    (h : i < l.length) : (l.set i a).getD i d = a := by
  rw [List.getD_eq_getElem _ _ (by simpa using h)]
  simp

theorem getD_set_ne {α : Type _} (a d : α) (l : List α) (i j : Nat)
    (hne : j ≠ i) : (l.set i a).getD j d = l.getD j d := by
  simp [List.getD, List.getElem?_set_ne (Ne.symm hne)]

/-- C4: `read(i)` returns the grid stored in slot `i`; if that grid is
non-empty the default clipboard is overwritten with it, otherwise the
default clipboard keeps its previous contents; the named slots are
unchanged in either case. -/
theorem readAt_spec (cm : ClipboardManager) (i : Nat)
    (h : i < cm.clipboards.length) :
    (cm.readAt i).snd = (cm.clipboards.get ⟨i, h⟩).state
  ∧ ((cm.readAt i).snd.isEmpty = false →
      (cm.readAt i).fst.defaultClipboard = (cm.readAt i).snd)
  ∧ ((cm.readAt i).snd.isEmpty = true →
      (cm.readAt i).fst.defaultClipboard = cm.defaultClipboard)
  ∧ (cm.readAt i).fst.clipboards = cm.clipboards := by
  have hg : cm.clipboards.getD i emptySlot = cm.clipboards.get ⟨i, h⟩ := by
    rw [List.getD_eq_getElem _ _ h]
    simp
  simp only [ClipboardManager.readAt, hg]
  by_cases he : cm.clipboards[i].state.isEmpty = true
  · simp [he]
  · simp only [Bool.not_eq_true] at he
    simp [he]

theorem readAt_spec_witness :
    (0 : Nat) < ((⟨⟨[]⟩, [⟨⟨[[Element.signal false false]]⟩, ⟨⟨[]⟩⟩⟩]⟩ :
        ClipboardManager)).clipboards.length
  ∧ (((⟨⟨[]⟩, [⟨⟨[[Element.signal false false]]⟩, ⟨⟨[]⟩⟩⟩]⟩ :
        ClipboardManager)).readAt 0).snd = ⟨[[Element.signal false false]]⟩
  ∧ (((⟨⟨[]⟩, [⟨⟨[[Element.signal false false]]⟩, ⟨⟨[]⟩⟩⟩]⟩ :
        ClipboardManager)).readAt 0).fst.defaultClipboard
      = ⟨[[Element.signal false false]]⟩ := by
  have h := readAt_spec
    (⟨⟨[]⟩, [⟨⟨[[Element.signal false false]]⟩, ⟨⟨[]⟩⟩⟩]⟩ : ClipboardManager) 0
    (by decide)
  exact ⟨by decide, h.1.trans (by decide), (h.2.1 (by decide)).trans (h.1.trans (by decide))⟩

/-- C6: `write(g, i)` stores `g` into slot `i`, regenerates that slot's
preview from `g`, overwrites the default clipboard with `g`, and leaves
every other named slot unchanged. -/
theorem writeAt_spec (cm : ClipboardManager) (g : CanvasState) (i : Nat)
    (h : i < cm.clipboards.length) :
    (cm.writeAt g i).clipboards.getD i emptySlot = ⟨g, ⟨g⟩⟩
  ∧ (cm.writeAt g i).defaultClipboard = g
  ∧ ∀ j, j ≠ i →
      (cm.writeAt g i).clipboards.getD j emptySlot = cm.clipboards.getD j emptySlot := by
  have hlen : i < (cm.clipboards.set i
      { cm.clipboards.getD i emptySlot with state := g }).length := by
    simpa using h
  refine ⟨?_, ?_, ?_⟩
  · simp only [ClipboardManager.writeAt, ClipboardManager.generateThumbnail]
    rw [getD_set_self _ _ _ _ (by simpa using h)]
    rw [getD_set_self _ _ _ _ h]
  · simp [ClipboardManager.writeAt, ClipboardManager.generateThumbnail]
  · intro j hj
    simp only [ClipboardManager.writeAt, ClipboardManager.generateThumbnail]
    rw [getD_set_ne _ _ _ _ _ hj, getD_set_ne _ _ _ _ _ hj]

theorem writeAt_spec_witness :
    (0 : Nat) < ((⟨⟨[]⟩, [emptySlot]⟩ : ClipboardManager)).clipboards.length
  ∧ ((⟨⟨[]⟩, [emptySlot]⟩ : ClipboardManager).writeAt
      ⟨[[Element.source true true]]⟩ 0).clipboards.getD 0 emptySlot
      = ⟨⟨[[Element.source true true]]⟩, ⟨⟨[[Element.source true true]]⟩⟩⟩
  ∧ ((⟨⟨[]⟩, [emptySlot]⟩ : ClipboardManager).writeAt
      ⟨[[Element.source true true]]⟩ 0).defaultClipboard
      = ⟨[[Element.source true true]]⟩ := by
  have h := writeAt_spec (⟨⟨[]⟩, [emptySlot]⟩ : ClipboardManager)
    ⟨[[Element.source true true]]⟩ 0 (by decide)
  exact ⟨by decide, h.1, h.2.1⟩

/-- C5 counterexample: with slot 0 (the default clipboard) holding a
non-empty grid, `write(empty, 1)` followed by `read(1)` does NOT leave the
default clipboard equal to its prior non-empty grid — the write itself
unconditionally overwrites the default clipboard. -/
theorem writeAt_empty_clobbers_default :
    ¬ ((((⟨⟨[[Element.source true true]]⟩, List.replicate 10 emptySlot⟩ :
        ClipboardManager).writeAt ⟨[]⟩ 1).readAt 1).fst.defaultClipboard
      = ⟨[[Element.source true true]]⟩) := by
  decide

/-- C5 amended: for every state whose default clipboard is non-empty,
`write(empty, i)` followed by `read(i)` leaves the default clipboard equal
to the empty grid just written — in particular different from its prior
non-empty contents — because `write` overwrites the default clipboard
unconditionally and the subsequent `read` of the (now empty) slot leaves it
alone. -/
theorem writeAt_empty_then_readAt (cm : ClipboardManager) (e : CanvasState) (i : Nat)
    (hcm : cm.defaultClipboard.isEmpty = false) (he : e.isEmpty = true) :
    ((((cm.writeAt e i).readAt i).fst).defaultClipboard = e)
  ∧ ((((cm.writeAt e i).readAt i).fst).defaultClipboard ≠ cm.defaultClipboard) := by
  have hlen : (cm.writeAt e i).clipboards.length = cm.clipboards.length := by
    simp [ClipboardManager.writeAt, ClipboardManager.generateThumbnail]
  have hslot : ((cm.writeAt e i).clipboards.getD i emptySlot).state.isEmpty = true := by
    by_cases h : i < cm.clipboards.length
    · have := (writeAt_spec cm e i h).1
      rw [this]
      exact he
    · have hb : (cm.writeAt e i).clipboards.length ≤ i :=
        le_of_eq_of_le hlen (Nat.le_of_not_lt h)
      rw [List.getD_eq_default _ _ hb]
      rfl
  have hd2 : (cm.writeAt e i).defaultClipboard = e := by
    simp [ClipboardManager.writeAt, ClipboardManager.generateThumbnail]
  have hdef : ((cm.writeAt e i).readAt i).fst.defaultClipboard = e := by
    simp only [ClipboardManager.readAt]
    rw [if_pos hslot]
    exact hd2
  refine ⟨hdef, ?_⟩
  rw [hdef]
  intro hcontra
  rw [hcontra, hcm] at he
  exact Bool.false_ne_true he

theorem writeAt_empty_then_readAt_witness :
    ((⟨⟨[[Element.source true true]]⟩, List.replicate 10 emptySlot⟩ :
        ClipboardManager)).defaultClipboard.isEmpty = false
  ∧ (⟨[]⟩ : CanvasState).isEmpty = true
  ∧ ((((⟨⟨[[Element.source true true]]⟩, List.replicate 10 emptySlot⟩ :
        ClipboardManager).writeAt ⟨[]⟩ 1).readAt 1).fst).defaultClipboard = ⟨[]⟩ := by
  exact ⟨by decide, by decide,
    (writeAt_empty_then_readAt
      (⟨⟨[[Element.source true true]]⟩, List.replicate 10 emptySlot⟩ : ClipboardManager)
      ⟨[]⟩ 1 (by decide) (by decide)).1⟩

/-- C8: writing back the grid returned by reading the default clipboard is
the identity on the whole clipboard manager state — the default clipboard
keeps its value and every named slot is untouched. -/
theorem write_read_roundtrip (cm : ClipboardManager) :
    cm.write cm.read = cm := rfl

/-- C3: `saveToHistory` returns true exactly when the grid differs from the
top-of-undo-stack snapshot; when unchanged it pushes nothing and leaves the
whole manager untouched (so repeating it is idempotent); when changed it
pushes a new snapshot, clears the redo stack and returns true. -/
theorem saveToHistory_spec (hm : HistoryManager) (g : CanvasState) (d : Point) :
    ((hm.saveToHistory g d).snd = true ↔ g ≠ hm.currentSnapshot.state)
  ∧ (g = hm.currentSnapshot.state → hm.saveToHistory g d = (hm, false))
  ∧ (g ≠ hm.currentSnapshot.state →
      (hm.saveToHistory g d).fst.currentSnapshot = ⟨g, d⟩
      ∧ (hm.saveToHistory g d).fst.undoStack = hm.currentSnapshot :: hm.undoStack
      ∧ (hm.saveToHistory g d).fst.redoStack = []
      ∧ (hm.saveToHistory g d).snd = true) := by
  by_cases hgc : g = hm.currentSnapshot.state
  · simp [HistoryManager.saveToHistory, hgc]
  · simp [HistoryManager.saveToHistory, hgc]

theorem saveToHistory_spec_witness :
    (((⟨⟨⟨[]⟩, ⟨0, 0⟩⟩, [], [], none⟩ : HistoryManager).saveToHistory
        ⟨[[Element.signal false false]]⟩ ⟨0, 0⟩).snd = true
      ↔ (⟨[[Element.signal false false]]⟩ : CanvasState)
          ≠ ((⟨⟨⟨[]⟩, ⟨0, 0⟩⟩, [], [], none⟩ : HistoryManager)).currentSnapshot.state)
  ∧ ((⟨⟨⟨[]⟩, ⟨0, 0⟩⟩, [], [], none⟩ : HistoryManager).saveToHistory
        ⟨[[Element.signal false false]]⟩ ⟨0, 0⟩).fst.redoStack = [] := by
  have h := saveToHistory_spec (⟨⟨⟨[]⟩, ⟨0, 0⟩⟩, [], [], none⟩ : HistoryManager)
    ⟨[[Element.signal false false]]⟩ ⟨0, 0⟩
  exact ⟨h.1, (h.2.2 (by decide)).2.2.1⟩

/-- C10: for a touch-sourced event or one of the five SDL mouse buttons,
`resolveInputHandleIndex` never reaches the unreachable default branch and
returns an index below `NUM_INPUT_HANDLES`: 0 for touch, 1–5 for the
buttons. -/
theorem resolveInputHandleIndex_safe (e : SDL_MouseButtonEvent)
    (h : e.which = SDL_TOUCH_MOUSEID
      ∨ e.button = SDL_BUTTON_LEFT ∨ e.button = SDL_BUTTON_MIDDLE
      ∨ e.button = SDL_BUTTON_RIGHT ∨ e.button = SDL_BUTTON_X1
      ∨ e.button = SDL_BUTTON_X2) :
    resolveInputHandleIndex e
      = some (if e.which = SDL_TOUCH_MOUSEID then 0 else e.button)
  ∧ (if e.which = SDL_TOUCH_MOUSEID then 0 else e.button) < NUM_INPUT_HANDLES := by
  by_cases ht : e.which = SDL_TOUCH_MOUSEID
  · simp [resolveInputHandleIndex, ht, NUM_INPUT_HANDLES]
  · rcases h with h | h | h | h | h | h
    · exact absurd h ht
    all_goals
      simp [resolveInputHandleIndex, ht, h, SDL_BUTTON_LEFT, SDL_BUTTON_MIDDLE,
        SDL_BUTTON_RIGHT, SDL_BUTTON_X1, SDL_BUTTON_X2, NUM_INPUT_HANDLES]

theorem resolveInputHandleIndex_safe_witness :
    resolveInputHandleIndex ⟨0, 3⟩ = some 3 ∧ (3 : Nat) < NUM_INPUT_HANDLES := by
  have h := resolveInputHandleIndex_safe ⟨0, 3⟩ (by decide)
  refine ⟨h.1.trans (by decide), ?_⟩
  have := h.2
  simpa using this

theorem foldl_append_map {α β : Type _} (f : α → β) (l : List α) (init : List β) :
    l.foldl (fun acc x => acc ++ [f x]) init = init ++ l.map f := by
  induction l generalizing init with
  | nil => simp
  | cons a t ih => simp [ih]

theorem foldl_append_flatMap {α β : Type _} (g : α → List β) (l : List α) (init : List β) :
    l.foldl (fun acc x => acc ++ g x) init = init ++ l.flatMap g := by
  induction l generalizing init with
  | nil => simp
  | cons a t ih => simp [ih]

theorem encodeElement_or (e : Element) :
    encodeElement e = (e.index <<< 2) ||| ((cond e.getLogicLevel 1 0) <<< 1)
      ||| (cond e.getDefaultLogicLevel 1 0) := by
  cases e <;>
    first
      | rfl
      | (rename_i l d; cases l <;> cases d <;> rfl)

/-- C1: the save produced by `writeSave` is exactly the 4-byte magic, a
little-endian 32-bit version, the width and height as little-endian 32-bit
integers, then one byte per cell in row-major order, the byte being
`(elementKindIndex << 2) | (logicLevel << 1) | defaultLogicLevel` (both
levels 0 for an empty cell). -/
theorem writeSave_layout (s : CanvasState) :
    writeSave s =
      CCSB_FILE_MAGIC ++ leBytes32 0 ++ leBytes32 s.width ++ leBytes32 s.height ++
        (List.range s.height).flatMap (fun y =>
          (List.range s.width).map (fun x =>
            (Element.index (s.get x y) <<< 2)
              ||| ((cond (Element.getLogicLevel (s.get x y)) 1 0) <<< 1)
              ||| (cond (Element.getDefaultLogicLevel (s.get x y)) 1 0)))
  ∧ CCSB_FILE_MAGIC.length = 4 := by
  constructor
  · have hinner : ∀ (y : Nat) (acc : List Nat),
        (List.range s.width).foldl
            (fun acc2 x => acc2 ++ [encodeElement (s.get x y)]) acc
          = acc ++ (List.range s.width).map (fun x => encodeElement (s.get x y)) :=
      fun y acc => foldl_append_map _ _ acc
    simp only [writeSave, hinner]
    rw [foldl_append_flatMap]
    simp [encodeElement_or, List.append_assoc]
  · rfl

/-- C7: the file save action calls `HistoryManager::setSaved()` exactly
when `writeSave` succeeds; on `IO_ERROR` the history manager — and with it
the saved marker and `changedSinceLastSave` — is left exactly as before the
attempt. -/
theorem fileSaveAction_setSaved_spec (mw : MainWindow) (fp dr : Option Nat)
    (canOpen : Nat → Bool) :
    (SaveEvent.writeAttempt WriteResult.ioError ∈ (fileSaveAction mw fp dr canOpen).snd →
       (fileSaveAction mw fp dr canOpen).fst.stateManager.historyManager
           = mw.stateManager.historyManager
       ∧ SaveEvent.setSavedCall ∉ (fileSaveAction mw fp dr canOpen).snd)
  ∧ (SaveEvent.setSavedCall ∈ (fileSaveAction mw fp dr canOpen).snd ↔
       SaveEvent.writeAttempt WriteResult.OK ∈ (fileSaveAction mw fp dr canOpen).snd)
  ∧ (SaveEvent.writeAttempt WriteResult.OK ∈ (fileSaveAction mw fp dr canOpen).snd →
       (fileSaveAction mw fp dr canOpen).fst.stateManager.historyManager
         = mw.stateManager.historyManager.setSaved) := by
  by_cases hrun : mw.stateManager.simulator.running
  all_goals rcases fp with _ | p
  all_goals try rcases dr with _ | q
  all_goals try by_cases hco : canOpen p
  all_goals try by_cases hcq : canOpen (addExtensionIfNecessary q)
  all_goals
    simp [fileSaveAction, writeSaveRun, MainWindow.setUnsaved, MainWindow.setFilePath,
      StateManager.updateDefaultState, hrun, *]

/-- C9: the file save action restores the simulator's running status: a
running simulator is stopped first, every other step happens while it is
stopped, and it is restarted as the final step; a stopped simulator is
never started or stopped. -/
theorem fileSaveAction_sim_status (mw : MainWindow) (fp dr : Option Nat)
    (canOpen : Nat → Bool) :
    (fileSaveAction mw fp dr canOpen).fst.stateManager.simulator.running
      = mw.stateManager.simulator.running
  ∧ (mw.stateManager.simulator.running = true →
      ∃ mid : List SaveEvent,
        (fileSaveAction mw fp dr canOpen).snd
          = SaveEvent.simulatorStop :: (mid ++ [SaveEvent.simulatorStart])
        ∧ SaveEvent.simulatorStop ∉ mid ∧ SaveEvent.simulatorStart ∉ mid)
  ∧ (mw.stateManager.simulator.running = false →
      SaveEvent.simulatorStop ∉ (fileSaveAction mw fp dr canOpen).snd
      ∧ SaveEvent.simulatorStart ∉ (fileSaveAction mw fp dr canOpen).snd) := by
  by_cases hrun : mw.stateManager.simulator.running
  all_goals rcases fp with _ | p
  all_goals try rcases dr with _ | q
  all_goals try by_cases hco : canOpen p
  all_goals try by_cases hcq : canOpen (addExtensionIfNecessary q)
  all_goals
    simp [fileSaveAction, writeSaveRun, Simulator.start, Simulator.stop,
      MainWindow.setUnsaved, MainWindow.setFilePath, StateManager.updateDefaultState,
      hrun, *]
  all_goals
    first
      | exact ⟨[], by decide⟩
      | exact ⟨[SaveEvent.writeAttempt WriteResult.OK, SaveEvent.setSavedCall], by decide⟩
      | exact ⟨[SaveEvent.writeAttempt WriteResult.ioError], by decide⟩

theorem applyStep_comm (base : Nat → Bool) (a b : Nat × Bool) :
    applyStep (applyStep base a) b = applyStep (applyStep base b) a := by
  rcases a with ⟨n1, v1⟩
  rcases b with ⟨n2, v2⟩
  funext m
  by_cases h3 : n1 = n2
  · subst h3
    by_cases h1 : m = n1 <;>
      simp [applyStep, h1, Bool.or_assoc, Bool.or_comm, Bool.or_left_comm]
  · by_cases h1 : m = n1 <;> by_cases h2 : m = n2
    · exact absurd (h1.symm.trans h2) h3
    all_goals
      simp [applyStep, h1, h2, h3, Ne.symm h3, Bool.or_assoc, Bool.or_comm,
        Bool.or_left_comm]

theorem applyOutputs_perm {l1 l2 : List (Nat × Bool)} (p : l1.Perm l2) :
    ∀ base, applyOutputs l1 base = applyOutputs l2 base := by
  induction p with
  | nil => intro base; rfl
  | cons x p ih =>
    intro base
    simp only [applyOutputs, List.foldl_cons] at ih ⊢
    exact ih _
  | swap x y l =>
    intro base
    simp only [applyOutputs, List.foldl_cons]
    rw [applyStep_comm]
  | trans p q ih1 ih2 =>
    intro base
    exact (ih1 base).trans (ih2 base)

/-- C2: compiling a grid and running one tick is deterministic — repeated
runs from the same grid and event sequence yield the same node levels, and
the result is independent of the order in which the synchronously updated
devices are processed (any permutation of the compiled row-major device
list publishes the same levels). -/
theorem runOneTick_deterministic (s : CanvasState) (evs : List (Nat × Bool))
    (d1 d2 : List Device) (h1 : d1.Perm (compile s)) (h2 : d2.Perm (compile s)) :
    runOneTick s evs = runOneTick s evs
  ∧ tickOrdered d1 (initLevels s) (applyEvents evs (fun _ => false))
      = tickOrdered d2 (initLevels s) (applyEvents evs (fun _ => false)) := by
  refine ⟨rfl, ?_⟩
  have hp : (d1.flatMap
        (fun d => d.outputs (initLevels s) (applyEvents evs (fun _ => false)))).Perm
      (d2.flatMap
        (fun d => d.outputs (initLevels s) (applyEvents evs (fun _ => false)))) :=
    (h1.flatMap_right _).trans (h2.flatMap_right _).symm
  unfold tickOrdered
  exact applyOutputs_perm hp _

theorem runOneTick_deterministic_witness :
    runOneTick ⟨[[Element.source true true, Element.conductiveWire true true,
        Element.andGate false false]]⟩ [(0, true)]
      = runOneTick ⟨[[Element.source true true, Element.conductiveWire true true,
        Element.andGate false false]]⟩ [(0, true)]
  ∧ tickOrdered
      (compile ⟨[[Element.source true true, Element.conductiveWire true true,
        Element.andGate false false]]⟩)
      (initLevels ⟨[[Element.source true true, Element.conductiveWire true true,
        Element.andGate false false]]⟩)
      (applyEvents [(0, true)] (fun _ => false))
    = tickOrdered
      ((compile ⟨[[Element.source true true, Element.conductiveWire true true,
        Element.andGate false false]]⟩).reverse)
      (initLevels ⟨[[Element.source true true, Element.conductiveWire true true,
        Element.andGate false false]]⟩)
      (applyEvents [(0, true)] (fun _ => false)) :=
  runOneTick_deterministic
    ⟨[[Element.source true true, Element.conductiveWire true true,
      Element.andGate false false]]⟩ [(0, true)]
    (compile ⟨[[Element.source true true, Element.conductiveWire true true,
      Element.andGate false false]]⟩)
    ((compile ⟨[[Element.source true true, Element.conductiveWire true true,
      Element.andGate false false]]⟩).reverse)
    (List.Perm.refl _)
    (List.reverse_perm _)

theorem fileSaveAction_setSaved_spec_witness :
    SaveEvent.setSavedCall ∈
      (fileSaveAction ⟨⟨⟨[]⟩, ⟨[]⟩, ⟨true⟩, ⟨⟨⟨[]⟩, ⟨0, 0⟩⟩, [], [], none⟩⟩,
        false, none⟩ (some 5) none (fun _ => false)).snd
  ↔ SaveEvent.writeAttempt WriteResult.OK ∈
      (fileSaveAction ⟨⟨⟨[]⟩, ⟨[]⟩, ⟨true⟩, ⟨⟨⟨[]⟩, ⟨0, 0⟩⟩, [], [], none⟩⟩,
        false, none⟩ (some 5) none (fun _ => false)).snd :=
  (fileSaveAction_setSaved_spec
    ⟨⟨⟨[]⟩, ⟨[]⟩, ⟨true⟩, ⟨⟨⟨[]⟩, ⟨0, 0⟩⟩, [], [], none⟩⟩, false, none⟩
    (some 5) none (fun _ => false)).2.1

theorem fileSaveAction_sim_status_witness :
    (fileSaveAction ⟨⟨⟨[]⟩, ⟨[]⟩, ⟨true⟩, ⟨⟨⟨[]⟩, ⟨0, 0⟩⟩, [], [], none⟩⟩,
        false, none⟩ (some 5) none (fun _ => true)).fst.stateManager.simulator.running
      = true :=
  ((fileSaveAction_sim_status
    ⟨⟨⟨[]⟩, ⟨[]⟩, ⟨true⟩, ⟨⟨⟨[]⟩, ⟨0, 0⟩⟩, [], [], none⟩⟩, false, none⟩
    (some 5) none (fun _ => true)).1).trans rfl
